import Mathlib

/-!
Shallow embedding of the route-animation core of the `mapitt` repository
(`apps/frontend/src/components/Map/Map.tsx`).  The file contains three
iterative snapshots of the same component; line references below use the
concatenated file.  The primary (most feature-complete) snapshot is the first
one (lines 1-691): it defines `calculateDistance`, `calculateDuration`,
`formatDuration`, `create3DCurvedPath`, `getGroundRoute`, `buildPath`,
`interpolatePosition`, the `animateRoute`/`animateStep` animation driver, the
trace-request effect and the play/stop button handler.  The second snapshot
contributes an alternative `getGroundRoute` (lines 822-833) and the third an
alternative camera loop `animate` (lines 1437-1463), both of which are also
embedded where a claim cites them.

Numeric conventions: JavaScript floating-point arithmetic is idealised as
exact real arithmetic (`ℝ`) for geometric quantities; quantities that the
code only ever combines with rational operations (frame counters, progress
cursors, minute counts fed to string formatting) are modelled over `ℚ` so the
corresponding definitions stay kernel-evaluable.
-/

/-- Transport mode of a route segment (`mode ∈ {flight, drive, train, walk}`,
Map.tsx line 22). -/
inductive Mode where
  | flight
  | drive
  | train
  | walk
deriving DecidableEq

open Real in
/-- JavaScript `Math.atan2 y x`, written out by cases exactly as specified for
IEEE arguments (sign conventions of the ECMAScript standard; the code only
ever calls it with non-negative arguments). -/
noncomputable def mathAtan2 (y x : ℝ) : ℝ :=
  if 0 < x then arctan (y / x)
  else if x < 0 then
    (if 0 ≤ y then arctan (y / x) + π else arctan (y / x) - π)
  else
    (if 0 < y then π / 2 else if y < 0 then -(π / 2) else 0)

/-- `calculateDistance` (Map.tsx lines 66-76): haversine distance in km with
Earth radius 6371 between `[lng, lat]` pairs in degrees. -/
noncomputable def calculateDistance (start_ end_ : ℝ × ℝ) : ℝ :=
  let R : ℝ := 6371
  let dLat : ℝ := (end_.2 - start_.2) * Real.pi / 180
  let dLon : ℝ := (end_.1 - start_.1) * Real.pi / 180
  let a : ℝ :=
    Real.sin (dLat / 2) * Real.sin (dLat / 2) +
      Real.cos (start_.2 * Real.pi / 180) * Real.cos (end_.2 * Real.pi / 180) *
        Real.sin (dLon / 2) * Real.sin (dLon / 2)
  let c : ℝ := 2 * mathAtan2 (Real.sqrt a) (Real.sqrt (1 - a))
  R * c

/-- The `speeds` table of `calculateDuration` (Map.tsx lines 80-85), km/h. -/
noncomputable def speeds : Mode → ℝ
  | .flight => 800
  | .drive => 80
  | .train => 120
  | .walk => 5

/-- `calculateDuration` (Map.tsx lines 79-87): minutes for `distance` km. -/
noncomputable def calculateDuration (distance : ℝ) (mode : Mode) : ℝ :=
  distance / speeds mode * 60

/-- JavaScript truncating conversion (`Math.trunc`, also the quotient used by
the `%` operator): round toward zero. -/
def jsTrunc (q : ℚ) : ℤ :=
  if q < 0 then ⌈q⌉ else ⌊q⌋

/-- JavaScript remainder operator `x % y` (`x - y * trunc (x / y)`). -/
def jsMod (x y : ℚ) : ℚ :=
  x - y * jsTrunc (x / y)

/-- `formatDuration` (Map.tsx lines 90-94): `Math.floor (minutes / 60)` hours,
`Math.round (minutes % 60)` minutes, rendered as `"Hh Mm"`.  `Math.round` is
Mathlib's `round` (floor of `x + 1/2`).  Modelled over `ℚ` so the string
result is computable; the inputs in the claims are exactly representable. -/
def formatDuration (minutes : ℚ) : String :=
  let hours : ℤ := ⌊minutes / 60⌋
  let mins : ℤ := round (jsMod minutes 60)
  toString hours ++ "h " ++ toString mins ++ "m"

/-- A 3-D path point `[lng, lat, altitude]` (Map.tsx line 97). -/
abbrev Point3 : Type := ℝ × ℝ × ℝ

/-- Default value standing for out-of-range JavaScript array access; every
modelled access is proved (or commented) in range. -/
def point3Default : Point3 := (0, 0, 0)

/-- The planar (non-great-circle) distance of `create3DCurvedPath`
(Map.tsx lines 101-103): `Math.sqrt ((e0-s0)^2 + (e1-s1)^2)`. -/
noncomputable def flightPlanarDistance (start_ end_ : ℝ × ℝ) : ℝ :=
  Real.sqrt ((end_.1 - start_.1) ^ 2 + (end_.2 - start_.2) ^ 2)

/-- `maxAltitude` of `create3DCurvedPath` (Map.tsx line 106):
`Math.min (distance * 80000) 800000` metres. -/
noncomputable def flightMaxAltitude (start_ end_ : ℝ × ℝ) : ℝ :=
  min (flightPlanarDistance start_ end_ * 80000) 800000

/-- The loop body of `create3DCurvedPath` (Map.tsx lines 108-130) at
parameter `t`: quadratic Bézier in `lng`/`lat` with control point
`(midLng, midLat + min (distance * 0.2) 20)`, parabolic altitude
`maxAltitude * 4 * t * (1 - t)`. -/
noncomputable def create3DCurvedPathPoint (start_ end_ : ℝ × ℝ) (t : ℝ) : Point3 :=
  let midLng : ℝ := (start_.1 + end_.1) / 2
  let midLat : ℝ := (start_.2 + end_.2) / 2
  let curvature : ℝ := min (flightPlanarDistance start_ end_ * 0.2) 20
  let controlLat : ℝ := midLat + curvature
  let lng : ℝ := (1 - t) ^ 2 * start_.1 + 2 * (1 - t) * t * midLng + t ^ 2 * end_.1
  let lat : ℝ := (1 - t) ^ 2 * start_.2 + 2 * (1 - t) * t * controlLat + t ^ 2 * end_.2
  let altitude : ℝ := flightMaxAltitude start_ end_ * 4 * t * (1 - t)
  (lng, lat, altitude)

/-- `create3DCurvedPath` (Map.tsx lines 97-134): `steps = 200`, one point for
each `i = 0, …, steps` at `t = i / steps`. -/
noncomputable def create3DCurvedPath (start_ end_ : ℝ × ℝ) : List Point3 :=
  List.ofFn (fun i : Fin (200 + 1) => create3DCurvedPathPoint start_ end_ ((i : ℕ) / (200 : ℝ)))

/-- One route of a parsed directions response: its `geometry.coordinates`
list of `[lng, lat]` pairs. -/
structure DirRoute where
  coords : List (ℝ × ℝ)

/-- The parsed body of a directions response: its `routes` field, which may
be absent (`none`) or any list. -/
structure DirResponse where
  routes : Option (List DirRoute)

/-- Outcome of the directions lookup collaborator (`fetch` + `res.json()`):
either some exception is thrown inside the `try` block (network error,
malformed body, shape errors while reading `routes[0].geometry.coordinates`),
or a parsed response value is produced. -/
inductive FetchOutcome where
  | throws
  | ok (resp : DirResponse)

/-- The ground-route elevation constant of `getGroundRoute`
(Map.tsx line 146): `train → 50`, `drive → 30`, otherwise `20`. -/
noncomputable def groundElevation : Mode → ℝ
  | .train => 50
  | .drive => 30
  | _ => 20

/-- `getGroundRoute` of the primary snapshot (Map.tsx lines 137-155).  The
`try` block fetches directions; on success with a non-empty `routes` list it
maps the first route's coordinates to `[lng, lat, elevation]`.  Every thrown
exception is caught (and only logged), and both the catch path and the
falsy-`routes` path fall through to the fallback
`[[start0, start1, 20], [end0, end1, 20]]` at line 154. -/
noncomputable def getGroundRoute (start_ end_ : ℝ × ℝ) (mode : Mode)
    (outcome : FetchOutcome) : List Point3 :=
  match outcome with
  | .throws => [(start_.1, start_.2, 20), (end_.1, end_.2, 20)]
  | .ok resp =>
    match resp.routes with
    | some (r :: _) => r.coords.map (fun c => (c.1, c.2, groundElevation mode))
    | _ => [(start_.1, start_.2, 20), (end_.1, end_.2, 20)]

/-- `getGroundRoute` of the second snapshot (Map.tsx lines 822-833): returns
`data.routes[0].geometry.coordinates`; any exception inside the `try` block
(network error, malformed body, and the `TypeError` raised by reading
`routes[0].geometry` when `routes` is missing or empty) is caught and
`[start, end]` is returned. -/
def getGroundRouteV2 (start_ end_ : ℝ × ℝ) (_mode : Mode)
    (outcome : FetchOutcome) : List (ℝ × ℝ) :=
  match outcome with
  | .throws => [start_, end_]
  | .ok resp =>
    match resp.routes with
    | some (r :: _) => r.coords
    | _ => [start_, end_]

/-- `buildPath` of the primary snapshot (Map.tsx lines 158-168): flight
segments get the synthesised curve, ground segments the directions result
(the fetch outcome is passed in explicitly; flight ignores it). -/
noncomputable def buildPath (from_ to_ : ℝ × ℝ) (mode : Mode)
    (outcome : FetchOutcome) : List Point3 :=
  match mode with
  | .flight => create3DCurvedPath from_ to_
  | _ => getGroundRoute from_ to_ mode outcome

/-- `interpolatePosition` (Map.tsx lines 225-231): componentwise linear
interpolation between two 3-D points. -/
noncomputable def interpolatePosition (p1 p2 : Point3) (t : ℝ) : Point3 :=
  (p1.1 + (p2.1 - p1.1) * t,
   p1.2.1 + (p2.2.1 - p1.2.1) * t,
   p1.2.2 + (p2.2.2 - p1.2.2) * t)

/-- A `Location` (Map.tsx lines 11-16): id, display name and `[lng, lat]`
coordinates (the optional address plays no role in the animation core). -/
structure Location where
  id : String
  name : String
  coordinates : ℝ × ℝ

/-- A route segment (Map.tsx lines 19-23). -/
structure Segment where
  from_ : Location
  to_ : Location
  mode : Mode

/-- Placeholder segment used for the (provably in-range) `segments[segIndex]`
accesses. -/
def defaultSegment : Segment :=
  ⟨⟨"", "", (0, 0)⟩, ⟨"", "", (0, 0)⟩, .flight⟩

/-- `animationDuration` (Map.tsx line 372): 8000 ms for flight, 6000 ms for
ground modes. -/
def animationDuration : Mode → ℚ
  | .flight => 8000
  | _ => 6000

/-- `frameTime = 1000 / fps` with `fps = 60` (Map.tsx lines 370-371). -/
def frameTime : ℚ := 1000 / 60

/-- `totalFrames = animationDuration / frameTime` (Map.tsx line 373):
480 frames for flight, 360 for ground modes. -/
def totalFrames (mode : Mode) : ℚ := animationDuration mode / frameTime

/-- `progressPerFrame = (path.length - 1) / totalFrames` (Map.tsx line 374),
with the path length as a JavaScript number (so `length - 1` can be `-1`). -/
def progressPerFrame (pathLen : ℕ) (mode : Mode) : ℚ :=
  ((pathLen : ℚ) - 1) / totalFrames mode

/-- A pending asynchronous continuation of the animation driver.  The code
keeps at most one of these alive at a time:

* `settle idx path` — the `await new Promise(... setTimeout ..., 1200)`
  camera-settle delay (Map.tsx line 362), holding the closure's `path`;
* `frame idx path progress drawn` — a pending `requestAnimationFrame`
  callback for `animateStep` (lines 454/457), holding the closure state
  (`interpolationProgress`, `drawnPath`); its id is stored in
  `animationRef.current`;
* `nextSeg idx` — the pending `setTimeout(() => animateRoute(segIndex + 1),
  500)` inter-segment delay (line 397); its id is stored nowhere. -/
inductive PendingTask where
  | settle (idx : ℕ) (path : List Point3)
  | frame (idx : ℕ) (path : List Point3) (progress : ℚ) (drawn : List Point3)
  | nextSeg (idx : ℕ)

/-- The modelled component state of the primary snapshot: React state
(`isAnimating`, `currentSegment`), refs (`vehicleMarkerRef` as the marker's
lng/lat position, `totalProgressRef`), the data of the single `live-route`
GeoJSON source, whether `onTraceComplete` has fired, and the single pending
continuation.  `invokedIndex` records the `segIndex` argument of the most
recent `animateRoute` invocation.  Camera commands (`fitBounds`, `easeTo`)
and the marker's rotation only affect the external map collaborator and are
not tracked. -/
structure Config where
  isAnimating : Bool
  currentSegment : ℕ
  invokedIndex : ℕ
  marker : Option (ℝ × ℝ)
  liveCoords : List Point3
  totalDistance : ℝ
  totalDuration : ℝ
  completed : Bool
  pending : Option PendingTask

/-- The initial component state. -/
def initConfig : Config :=
  ⟨false, 0, 0, none, [], 0, 0, false, none⟩

/-- The synchronous part of `animateRoute segIndex` (Map.tsx lines 234-362),
up to the point where it suspends on the camera-settle delay.

* Lines 236-244: when `segIndex >= segments.length` (which also covers an
  absent/empty segment list), stop animating, remove the vehicle marker and
  fire `onTraceComplete`.
* Otherwise (lines 246-362): mark animating, record the segment index, build
  the path (`buildPath`, with the directions outcome for this segment
  supplied by the `fetch` oracle), accumulate the segment's distance and
  duration into the running totals, rebuild the `live-route` source with
  empty coordinates, place the vehicle marker at `path[0]`, issue the camera
  `fitBounds` (not tracked) and suspend on the 1200 ms settle delay.
  (`setRouteProgress` drives the display overlay only and is not tracked.)
  If the built path is empty, the marker placement `path[0][0]` (line 344)
  throws a TypeError and the run halts unhandled — see the `[]` match arm. -/
noncomputable def animateRoute (segments : List Segment) (fetch : ℕ → FetchOutcome)
    (segIndex : ℕ) (cfg : Config) : Config :=
  if segments.length ≤ segIndex then
    { cfg with
      isAnimating := false
      marker := none
      completed := true
      invokedIndex := segIndex
      pending := none }
  else
    let seg := segments.getD segIndex defaultSegment
    let path := buildPath seg.from_.coordinates seg.to_.coordinates seg.mode (fetch segIndex)
    let distance := calculateDistance seg.from_.coordinates seg.to_.coordinates
    let duration := calculateDuration distance seg.mode
    match path with
    | [] =>
      -- An empty built path (possible only for a successful directions
      -- response whose first route carries an empty coordinate list) reaches
      -- the marker placement with `path[0]` undefined.  By then the totals
      -- were already accumulated (lines 255-256), the `live-route` source
      -- was rebuilt with empty coordinates (lines 280-288) and the previous
      -- vehicle marker was removed (line 337; the ref keeps dangling, but no
      -- marker is on the map).  Evaluating `path[0][0]` at line 344 then
      -- throws a TypeError; the async function rejects with no handler, so
      -- no timer or frame is ever scheduled: the run halts here, never
      -- completing and never firing `onTraceComplete`.
      { cfg with
        isAnimating := true
        currentSegment := segIndex
        invokedIndex := segIndex
        totalDistance := cfg.totalDistance + distance
        totalDuration := cfg.totalDuration + duration
        liveCoords := []
        marker := none
        pending := none }
    | p0 :: _ =>
      { cfg with
        isAnimating := true
        currentSegment := segIndex
        invokedIndex := segIndex
        totalDistance := cfg.totalDistance + distance
        totalDuration := cfg.totalDuration + duration
        liveCoords := []
        marker := some (p0.1, p0.2.1)
        pending := some (.settle segIndex path) }

/-- Lines 401-409 of `animateStep`: `currentPathIndex = Math.floor progress`,
`t` its fractional part, and the linear interpolation between the bracketing
path points.  (When this is evaluated, `path.length ≥ 2` and
`0 ≤ progress < path.length - 1`, so `Math.floor` agrees with the `ℕ`-valued
floor and both indices are in range.) -/
noncomputable def frameInterpolatedPos (path : List Point3) (progress : ℚ) : Point3 :=
  let currentPathIndex : ℕ := (⌊progress⌋).toNat
  let t : ℚ := progress - currentPathIndex
  interpolatePosition
    (path.getD currentPathIndex point3Default)
    (path.getD (min (currentPathIndex + 1) (path.length - 1)) point3Default)
    (t : ℝ)

/-- The body of a fired frame (`animateStep`, Map.tsx lines 378-455).
Frames are modelled at the granularity of effective frames: `animateStep`
invocations with `deltaTime < frameTime` only re-queue themselves without
touching any state (line 381), so they are identity steps and are elided.
Advance the progress cursor; if it reaches `path.length - 1`, write the full
path to the `live-route` source and schedule `animateRoute (segIndex + 1)` on
the 500 ms timer (lines 387-398).  Otherwise interpolate the current position
between the bracketing points, append it to the drawn path, write the drawn
path to the source, move the vehicle marker there (its rotation and the
camera-follow `easeTo` affect only the untracked map collaborator) and
schedule the next frame. -/
noncomputable def animateStep (segments : List Segment) (idx : ℕ) (path : List Point3)
    (progress : ℚ) (drawn : List Point3) (cfg : Config) : Config :=
  let seg := segments.getD idx defaultSegment
  let progress' := progress + progressPerFrame path.length seg.mode
  if (path.length : ℚ) - 1 ≤ progress' then
    { cfg with
      liveCoords := path
      pending := some (.nextSeg (idx + 1)) }
  else
    let currentPos := frameInterpolatedPos path progress'
    let drawn' := drawn ++ [currentPos]
    { cfg with
      liveCoords := drawn'
      marker := some (currentPos.1, currentPos.2.1)
      pending := some (.frame idx path progress' drawn') }

/-- One scheduler step dispatching the pending continuation: `settle` sets up
the reveal loop with `interpolationProgress = 0` and `drawnPath = [path[0]]`
(lines 365-367) and schedules the first frame (line 457); `frame` runs
`animateStep`; `nextSeg` is the 500 ms timer firing `animateRoute idx`. -/
noncomputable def step (segments : List Segment) (fetch : ℕ → FetchOutcome)
    (cfg : Config) : Config :=
  match cfg.pending with
  | none => cfg
  | some (.settle idx path) =>
    { cfg with pending := some (.frame idx path 0 [path.getD 0 point3Default]) }
  | some (.frame idx path progress drawn) => animateStep segments idx path progress drawn cfg
  | some (.nextSeg idx) => animateRoute segments fetch idx cfg

/-- `n` scheduler steps. -/
noncomputable def run (segments : List Segment) (fetch : ℕ → FetchOutcome)
    (n : ℕ) (cfg : Config) : Config :=
  (step segments fetch)^[n] cfg

/-- The `traceRequested` effect (Map.tsx lines 463-467): start the animation
at segment 0.  Note that it does not reset `totalProgressRef`. -/
noncomputable def traceStart (segments : List Segment) (fetch : ℕ → FetchOutcome)
    (cfg : Config) : Config :=
  animateRoute segments fetch 0 cfg

/-- The play branch of the button handler (Map.tsx lines 620-640): remove the
`live-route` layers and source, reset `totalProgressRef` to zero and start
`animateRoute 0`. -/
noncomputable def buttonStart (segments : List Segment) (fetch : ℕ → FetchOutcome)
    (cfg : Config) : Config :=
  animateRoute segments fetch 0
    { cfg with totalDistance := 0, totalDuration := 0, liveCoords := [] }

/-- The stop branch of the button handler (Map.tsx lines 641-648): set
`isAnimating` to `false` and call `cancelAnimationFrame` on the stored
`animationRef.current`.  Only a pending `requestAnimationFrame` callback is
cancelled by this; a pending `setTimeout` continuation (the settle delay or
the 500 ms inter-segment delay) is unaffected, and the vehicle marker and
`live-route` overlay are not removed. -/
def stopAction (cfg : Config) : Config :=
  { cfg with
    isAnimating := false
    pending := match cfg.pending with
      | some (.frame _ _ _ _) => none
      | p => p }

/-- `totalSteps = pathCoords.length - 1` of the third snapshot's camera loop
`animate` (Map.tsx line 1439), as a JavaScript number. -/
def animate3TotalSteps (pathCoords : List (ℝ × ℝ)) : ℚ :=
  (pathCoords.length : ℚ) - 1

/-- The third snapshot's `animationDuration` (Map.tsx line 1440): 8000 ms
for flight, 5000 ms otherwise.  `stepDuration` (line 1441) is
`animationDuration / totalSteps`. -/
def animationDuration3 : Mode → ℚ
  | .flight => 8000
  | _ => 5000

/-- The completion test of the third snapshot's camera loop (Map.tsx line
1444): `currentStep > totalSteps` hands off to the next segment; each
executed frame then advances `currentStep` by `0.5` (line 1461). -/
def animate3Done (pathCoords : List (ℝ × ℝ)) (currentStep : ℚ) : Bool :=
  animate3TotalSteps pathCoords < currentStep

/-- Sum of the per-segment haversine distances of a segment list. -/
noncomputable def sumDistances (segments : List Segment) : ℝ :=
  (segments.map (fun s => calculateDistance s.from_.coordinates s.to_.coordinates)).sum

/-- Sum of the per-segment estimated durations of a segment list. -/
noncomputable def sumDurations (segments : List Segment) : ℝ :=
  (segments.map (fun s =>
    calculateDuration (calculateDistance s.from_.coordinates s.to_.coordinates) s.mode)).sum

/-- A quadratic Bézier curve `B(t) = (1-t)^2 P0 + 2 (1-t) t C + t^2 P1`
(componentwise in the plane), used to state the specification of the flight
path independently of the loop in `create3DCurvedPath`. -/
noncomputable def quadBezier (p0 c p1 : ℝ × ℝ) (t : ℝ) : ℝ × ℝ :=
  ((1 - t) ^ 2 * p0.1 + 2 * (1 - t) * t * c.1 + t ^ 2 * p1.1,
   (1 - t) ^ 2 * p0.2 + 2 * (1 - t) * t * c.2 + t ^ 2 * p1.2)

/-- A single flight segment used for concrete runs of the machine. -/
def demoSegments : List Segment :=
  [⟨⟨"a", "A", (0, 0)⟩, ⟨"b", "B", (30, 40)⟩, .flight⟩]

/-- Two flight segments used for the cancellation scenario. -/
def demo2Segments : List Segment :=
  [⟨⟨"a", "A", (0, 0)⟩, ⟨"b", "B", (30, 40)⟩, .flight⟩,
   ⟨⟨"b", "B", (30, 40)⟩, ⟨"a", "A", (0, 0)⟩, .flight⟩]

/-- A directions oracle for the concrete runs (flight segments never consult
it). -/
def demoFetch : ℕ → FetchOutcome := fun _ => .throws

/-- A component state carrying non-zero accumulated totals left over from an
earlier completed run. -/
def cfgPrior : Config :=
  { initConfig with totalDistance := 5, totalDuration := 5 }

/-! ## Helper lemmas -/

/-- `Math.atan2 0 1 = 0`. -/
theorem mathAtan2_zero_one : mathAtan2 0 1 = 0 := by
  unfold mathAtan2
  norm_num

/-- The haversine distance of a point to itself is `0`. -/
theorem calculateDistance_self (p : ℝ × ℝ) : calculateDistance p p = 0 := by
  simp only [calculateDistance]
  have h0 : (p.2 - p.2) * Real.pi / 180 / 2 = 0 := by ring
  have h1 : (p.1 - p.1) * Real.pi / 180 / 2 = 0 := by ring
  rw [h0, h1]
  simp [mathAtan2_zero_one]

/-- The value `a` of the haversine formula is symmetric in the two points. -/
theorem haversine_a_symm (x y u v : ℝ) :
    Real.sin ((v - y) * Real.pi / 180 / 2) * Real.sin ((v - y) * Real.pi / 180 / 2) +
        Real.cos (y * Real.pi / 180) * Real.cos (v * Real.pi / 180) *
          Real.sin ((u - x) * Real.pi / 180 / 2) * Real.sin ((u - x) * Real.pi / 180 / 2) =
      Real.sin ((y - v) * Real.pi / 180 / 2) * Real.sin ((y - v) * Real.pi / 180 / 2) +
        Real.cos (v * Real.pi / 180) * Real.cos (y * Real.pi / 180) *
          Real.sin ((x - u) * Real.pi / 180 / 2) * Real.sin ((x - u) * Real.pi / 180 / 2) := by
  have e1 : (v - y) * Real.pi / 180 / 2 = -((y - v) * Real.pi / 180 / 2) := by ring
  have e2 : (u - x) * Real.pi / 180 / 2 = -((x - u) * Real.pi / 180 / 2) := by ring
  rw [e1, e2]
  simp only [Real.sin_neg]
  ring

/-- Symmetry of `calculateDistance`. -/
theorem calculateDistance_comm (a b : ℝ × ℝ) :
    calculateDistance a b = calculateDistance b a := by
  simp only [calculateDistance]
  rw [haversine_a_symm a.1 a.2 b.1 b.2]

/-! ## Claim C5 -/

/-- C5 (amended): `calculateDistance` is symmetric, and equal coordinate
pairs are at distance `0`; the converse of the second part is false (see the
counterexample). -/
theorem C5_haversine_symm_self (a b : ℝ × ℝ) :
    calculateDistance a b = calculateDistance b a ∧
      (a = b → calculateDistance a b = 0) := by
  refine ⟨calculateDistance_comm a b, fun h => ?_⟩
  rw [h]
  exact calculateDistance_self b

/-- C5 witness: a concrete instance of the amended claim. -/
theorem C5_haversine_symm_self_witness :
    calculateDistance ((2 : ℝ), (3 : ℝ)) ((2 : ℝ), (3 : ℝ)) = 0 :=
  (C5_haversine_symm_self ((2 : ℝ), (3 : ℝ)) ((2 : ℝ), (3 : ℝ))).2 rfl

/-- C5 counterexample: two distinct lng/lat pairs at haversine distance `0`
(two different longitudes at the north pole), so `calculateDistance a b = 0`
does not imply `a = b`. -/
theorem C5_zero_ne_counterexample :
    calculateDistance ((0 : ℝ), (90 : ℝ)) ((10 : ℝ), (90 : ℝ)) = 0 ∧
      ((0 : ℝ), (90 : ℝ)) ≠ ((10 : ℝ), (90 : ℝ)) := by
  constructor
  · simp only [calculateDistance]
    have h0 : ((90 : ℝ) - 90) * Real.pi / 180 / 2 = 0 := by ring
    have h1 : (90 : ℝ) * Real.pi / 180 = Real.pi / 2 := by ring
    rw [h0, h1]
    simp [mathAtan2_zero_one, Real.cos_pi_div_two]
  · intro h
    have := congrArg Prod.fst h
    norm_num at this

/-! ## Claim C6 -/

/-- C6: for every non-negative distance and every mode, the estimated
duration is `distance / speed mode * 60` minutes with the fixed speed table
`{flight: 800, drive: 80, train: 120, walk: 5}` km/h; in particular 800 km by
flight is 60 minutes. -/
theorem C6_duration_formula (d : ℝ) (mode : Mode) (hd : 0 ≤ d) :
    calculateDuration d mode = d / speeds mode * 60 ∧
      speeds .flight = 800 ∧ speeds .drive = 80 ∧
      speeds .train = 120 ∧ speeds .walk = 5 ∧
      calculateDuration 800 .flight = 60 := by
  refine ⟨rfl, rfl, rfl, rfl, rfl, ?_⟩
  unfold calculateDuration speeds
  norm_num

/-- C6 witness. -/
theorem C6_duration_formula_witness : calculateDuration 800 .flight = 60 :=
  (C6_duration_formula 800 .flight (by norm_num)).2.2.2.2.2

/-! ## Claim C7 -/

/-- C7: for every non-negative minute count, `formatDuration` renders the
floored hour count and the rounded remainder minutes as `"Hh Mm"`; in
particular `135 ↦ "2h 15m"`, `59 ↦ "0h 59m"`, `60 ↦ "1h 0m"`. -/
theorem C7_formatDuration (m : ℚ) (hm : 0 ≤ m) :
    formatDuration m =
        toString ⌊m / 60⌋ ++ "h " ++ toString (round (m - 60 * ⌊m / 60⌋)) ++ "m" ∧
      formatDuration 135 = "2h 15m" ∧
      formatDuration 59 = "0h 59m" ∧
      formatDuration 60 = "1h 0m" := by
  refine ⟨?_, ?_, ?_, ?_⟩
  · have ht : jsTrunc (m / 60) = ⌊m / 60⌋ := by
      unfold jsTrunc
      rw [if_neg]
      push_neg
      positivity
    unfold formatDuration jsMod
    rw [ht]
  · simp only [formatDuration, jsMod, jsTrunc]
    norm_num [round_eq]
    rfl
  · simp only [formatDuration, jsMod, jsTrunc]
    norm_num [round_eq]
    rfl
  · simp only [formatDuration, jsMod, jsTrunc]
    norm_num [round_eq]
    rfl

/-- C7 witness. -/
theorem C7_formatDuration_witness : formatDuration 135 = "2h 15m" :=
  (C7_formatDuration 135 (by norm_num)).2.1

/-! ## Claim C1 -/

/-- C1: for ground modes, whenever the directions lookup fails in any way
(the fetch or parse throws, or the `routes` list is missing or empty), the
primary snapshot's `buildPath` returns exactly the two-point straight path
from `from` to `to` (at the fallback elevation 20), whose lng/lat projection
is `[from, to]`; the second snapshot's `getGroundRoute` returns literally
`[from, to]`.  Both functions are total — every exception is caught inside
them, so they never throw to the caller. -/
theorem C1_ground_fallback (from_ to_ : ℝ × ℝ) (mode : Mode) (outcome : FetchOutcome)
    (hmode : mode ≠ .flight)
    (hfail : outcome = .throws ∨ outcome = .ok ⟨none⟩ ∨ outcome = .ok ⟨some []⟩) :
    buildPath from_ to_ mode outcome = [(from_.1, from_.2, 20), (to_.1, to_.2, 20)] ∧
      (buildPath from_ to_ mode outcome).map (fun p => (p.1, p.2.1)) = [from_, to_] ∧
      getGroundRouteV2 from_ to_ mode outcome = [from_, to_] := by
  have hb : buildPath from_ to_ mode outcome = getGroundRoute from_ to_ mode outcome := by
    cases mode with
    | flight => exact absurd rfl hmode
    | drive => rfl
    | train => rfl
    | walk => rfl
  rcases hfail with h | h | h <;> subst h <;>
    simp [hb, getGroundRoute, getGroundRouteV2]

/-- C1 witness: a concrete failing lookup for a drive segment. -/
theorem C1_ground_fallback_witness :
    buildPath ((0 : ℝ), (0 : ℝ)) ((1 : ℝ), (1 : ℝ)) .drive .throws =
        [((0 : ℝ), (0 : ℝ), (20 : ℝ)), ((1 : ℝ), (1 : ℝ), (20 : ℝ))] ∧
      getGroundRouteV2 ((0 : ℝ), (0 : ℝ)) ((1 : ℝ), (1 : ℝ)) .drive .throws =
        [((0 : ℝ), (0 : ℝ)), ((1 : ℝ), (1 : ℝ))] := by
  have h := C1_ground_fallback ((0 : ℝ), (0 : ℝ)) ((1 : ℝ), (1 : ℝ)) .drive .throws
    (by intro h; cases h) (Or.inl rfl)
  exact ⟨h.1, h.2.2⟩

/-! ## Claim C2 -/

/-- Element access into the sampled flight path. -/
theorem create3DCurvedPath_getD (s e : ℝ × ℝ) (i : ℕ) (h : i ≤ 200) :
    (create3DCurvedPath s e).getD i point3Default =
      create3DCurvedPathPoint s e ((i : ℝ) / 200) := by
  have hlen : i < (create3DCurvedPath s e).length := by
    simp only [create3DCurvedPath, List.length_ofFn]
    omega
  rw [List.getD_eq_getElem _ _ hlen]
  simp only [create3DCurvedPath, List.getElem_ofFn]

/-- C2: `buildPath` for flight is the synthesised curve; the curve has
exactly `steps + 1 = 201` points, starts at `from` (altitude 0), ends at
`to` (altitude 0), its `i`-th point is the quadratic Bézier with control
point `(midLng, midLat + min (planarDistance * 0.2) 20)` evaluated at
`t = i / steps`, and the sample parameters are strictly increasing. -/
theorem C2_flight_path (from_ to_ : ℝ × ℝ) (outcome : FetchOutcome) :
    buildPath from_ to_ .flight outcome = create3DCurvedPath from_ to_ ∧
      (create3DCurvedPath from_ to_).length = 200 + 1 ∧
      (create3DCurvedPath from_ to_).getD 0 point3Default = (from_.1, from_.2, 0) ∧
      (create3DCurvedPath from_ to_).getD 200 point3Default = (to_.1, to_.2, 0) ∧
      (∀ i : ℕ, i ≤ 200 →
        ((create3DCurvedPath from_ to_).getD i point3Default).1 =
            (quadBezier from_
              ((from_.1 + to_.1) / 2,
                (from_.2 + to_.2) / 2 + min (flightPlanarDistance from_ to_ * 0.2) 20)
              to_ ((i : ℝ) / 200)).1 ∧
          ((create3DCurvedPath from_ to_).getD i point3Default).2.1 =
            (quadBezier from_
              ((from_.1 + to_.1) / 2,
                (from_.2 + to_.2) / 2 + min (flightPlanarDistance from_ to_ * 0.2) 20)
              to_ ((i : ℝ) / 200)).2) ∧
      (∀ i j : ℕ, i < j → j ≤ 200 → (i : ℝ) / 200 < (j : ℝ) / 200) := by
  refine ⟨rfl, ?_, ?_, ?_, ?_, ?_⟩
  · simp only [create3DCurvedPath, List.length_ofFn]
  · rw [create3DCurvedPath_getD from_ to_ 0 (by norm_num)]
    simp only [create3DCurvedPathPoint]
    norm_num
  · rw [create3DCurvedPath_getD from_ to_ 200 (by norm_num)]
    simp only [create3DCurvedPathPoint]
    norm_num
  · intro i hi
    rw [create3DCurvedPath_getD from_ to_ i hi]
    exact ⟨rfl, rfl⟩
  · intro i j hij hj
    have hcast : (i : ℝ) < (j : ℝ) := by exact_mod_cast hij
    exact (div_lt_div_iff_of_pos_right (by norm_num)).mpr hcast

/-- C2 witness: the 5th sample of a concrete flight path is the Bézier value
at `t = 5/200`. -/
theorem C2_flight_path_witness :
    ((create3DCurvedPath ((0 : ℝ), (0 : ℝ)) ((3 : ℝ), (4 : ℝ))).getD 5 point3Default).1 =
      (quadBezier ((0 : ℝ), (0 : ℝ))
        (((0 : ℝ) + 3) / 2,
          ((0 : ℝ) + 4) / 2 +
            min (flightPlanarDistance ((0 : ℝ), (0 : ℝ)) ((3 : ℝ), (4 : ℝ)) * 0.2) 20)
        ((3 : ℝ), (4 : ℝ)) (((5 : ℕ) : ℝ) / 200)).1 :=
  ((C2_flight_path ((0 : ℝ), (0 : ℝ)) ((3 : ℝ), (4 : ℝ)) .throws).2.2.2.2.1 5 (by norm_num)).1

/-! ## Claim C10 -/

/-- The planar distance heuristic is symmetric in its endpoints. -/
theorem flightPlanarDistance_comm (s e : ℝ × ℝ) :
    flightPlanarDistance e s = flightPlanarDistance s e := by
  unfold flightPlanarDistance
  rw [show (s.1 - e.1) ^ 2 + (s.2 - e.2) ^ 2 = (e.1 - s.1) ^ 2 + (e.2 - s.2) ^ 2 by ring]

/-- The altitude cap is symmetric in the endpoints. -/
theorem flightMaxAltitude_comm (s e : ℝ × ℝ) :
    flightMaxAltitude e s = flightMaxAltitude s e := by
  unfold flightMaxAltitude
  rw [flightPlanarDistance_comm]

/-- Sample `i` of the reversed flight is sample `200 - i` of the forward
flight. -/
theorem create3DCurvedPathPoint_reverse (s e : ℝ × ℝ) (i : ℕ) (h : i ≤ 200) :
    create3DCurvedPathPoint e s ((i : ℝ) / 200) =
      create3DCurvedPathPoint s e (((200 - i : ℕ) : ℝ) / 200) := by
  have hc : ((200 - i : ℕ) : ℝ) = 200 - (i : ℝ) := by
    push_cast [h]
    ring
  rw [hc, show (200 - (i : ℝ)) / 200 = 1 - (i : ℝ) / 200 by ring]
  simp only [create3DCurvedPathPoint, flightPlanarDistance_comm, flightMaxAltitude_comm]
  rw [Prod.ext_iff, Prod.ext_iff]
  refine ⟨by ring, by ring, by ring⟩

/-- C10: the synthesised flight path is reversal-symmetric —
`create3DCurvedPath b a` is the point-by-point reverse of
`create3DCurvedPath a b`, altitude included. -/
theorem C10_flight_path_reverse (from_ to_ : ℝ × ℝ) :
    create3DCurvedPath to_ from_ = (create3DCurvedPath from_ to_).reverse := by
  apply List.ext_getElem
  · simp only [create3DCurvedPath, List.length_ofFn, List.length_reverse]
  · intro n h1 h2
    rw [List.getElem_reverse]
    have hn : n ≤ 200 := by
      simp only [create3DCurvedPath, List.length_ofFn] at h1
      omega
    simp only [create3DCurvedPath, List.getElem_ofFn, List.length_ofFn]
    rw [show (200 + 1 - 1 - n : ℕ) = 200 - n by omega]
    exact create3DCurvedPathPoint_reverse from_ to_ n hn

/-! ## Scheduler lemmas -/

/-- Zero steps do nothing. -/
theorem run_zero (segments : List Segment) (fetch : ℕ → FetchOutcome) (cfg : Config) :
    run segments fetch 0 cfg = cfg := rfl

/-- One step is `step`. -/
theorem run_one (segments : List Segment) (fetch : ℕ → FetchOutcome) (cfg : Config) :
    run segments fetch 1 cfg = step segments fetch cfg := by
  unfold run
  rw [Function.iterate_one]

/-- Unfolding a run from the front. -/
theorem run_succ (segments : List Segment) (fetch : ℕ → FetchOutcome) (n : ℕ) (cfg : Config) :
    run segments fetch (n + 1) cfg = run segments fetch n (step segments fetch cfg) :=
  Function.iterate_succ_apply _ n cfg

/-- Unfolding a run from the back. -/
theorem run_succ' (segments : List Segment) (fetch : ℕ → FetchOutcome) (n : ℕ) (cfg : Config) :
    run segments fetch (n + 1) cfg = step segments fetch (run segments fetch n cfg) :=
  Function.iterate_succ_apply' _ n cfg

/-- Runs compose. -/
theorem run_add (segments : List Segment) (fetch : ℕ → FetchOutcome) (m n : ℕ) (cfg : Config) :
    run segments fetch (m + n) cfg = run segments fetch m (run segments fetch n cfg) :=
  Function.iterate_add_apply _ m n cfg

/-- With no pending continuation, `step` is the identity. -/
theorem step_none (segments : List Segment) (fetch : ℕ → FetchOutcome) (cfg : Config)
    (h : cfg.pending = none) : step segments fetch cfg = cfg := by
  simp only [step, h]

/-- With no pending continuation, any run is the identity. -/
theorem run_none (segments : List Segment) (fetch : ℕ → FetchOutcome) (cfg : Config)
    (h : cfg.pending = none) : ∀ n, run segments fetch n cfg = cfg := by
  intro n
  induction n with
  | zero => rfl
  | succ k ih =>
    rw [run_succ, step_none segments fetch cfg h, ih]

/-- Firing the settle delay schedules the first frame with
`interpolationProgress = 0` and `drawnPath = [path[0]]`. -/
theorem step_settle (segments : List Segment) (fetch : ℕ → FetchOutcome) (cfg : Config)
    (idx : ℕ) (path : List Point3) (h : cfg.pending = some (.settle idx path)) :
    step segments fetch cfg =
      { cfg with pending := some (.frame idx path 0 [path.getD 0 point3Default]) } := by
  simp only [step, h]

/-- Firing a pending frame executes `animateStep`. -/
theorem step_frame (segments : List Segment) (fetch : ℕ → FetchOutcome) (cfg : Config)
    (idx : ℕ) (path : List Point3) (progress : ℚ) (drawn : List Point3)
    (h : cfg.pending = some (.frame idx path progress drawn)) :
    step segments fetch cfg = animateStep segments idx path progress drawn cfg := by
  simp only [step, h]

/-- Firing the 500 ms inter-segment timer runs `animateRoute idx`. -/
theorem step_nextSeg (segments : List Segment) (fetch : ℕ → FetchOutcome) (cfg : Config)
    (idx : ℕ) (h : cfg.pending = some (.nextSeg idx)) :
    step segments fetch cfg = animateRoute segments fetch idx cfg := by
  simp only [step, h]

/-- A frame whose advanced cursor reaches `path.length - 1` publishes the
full path and schedules the next segment. -/
theorem animateStep_done (segments : List Segment) (idx : ℕ) (path : List Point3)
    (progress : ℚ) (drawn : List Point3) (cfg : Config)
    (hc : (path.length : ℚ) - 1 ≤
      progress + progressPerFrame path.length (segments.getD idx defaultSegment).mode) :
    animateStep segments idx path progress drawn cfg =
      { cfg with liveCoords := path, pending := some (.nextSeg (idx + 1)) } := by
  simp only [animateStep]
  rw [if_pos hc]

/-- A frame whose advanced cursor is still short of the end appends one
interpolated position, moves the marker there and schedules the next
frame. -/
theorem animateStep_cont (segments : List Segment) (idx : ℕ) (path : List Point3)
    (progress : ℚ) (drawn : List Point3) (cfg : Config)
    (hc : ¬ ((path.length : ℚ) - 1 ≤
      progress + progressPerFrame path.length (segments.getD idx defaultSegment).mode)) :
    ∃ pos : Point3,
      animateStep segments idx path progress drawn cfg =
        { cfg with
          liveCoords := drawn ++ [pos]
          marker := some (pos.1, pos.2.1)
          pending := some (.frame idx path
            (progress + progressPerFrame path.length (segments.getD idx defaultSegment).mode)
            (drawn ++ [pos])) } := by
  refine ⟨frameInterpolatedPos path
    (progress + progressPerFrame path.length (segments.getD idx defaultSegment).mode), ?_⟩
  simp only [animateStep]
  rw [if_neg hc]

/-- `animateRoute` at an exhausted index takes the completion branch. -/
theorem animateRoute_terminal (segments : List Segment) (fetch : ℕ → FetchOutcome)
    (segIndex : ℕ) (cfg : Config) (h : segments.length ≤ segIndex) :
    animateRoute segments fetch segIndex cfg =
      { cfg with
        isAnimating := false
        marker := none
        completed := true
        invokedIndex := segIndex
        pending := none } := by
  simp only [animateRoute]
  rw [if_pos h]

/-- `animateRoute` at a live index whose built path is non-empty accumulates
the segment's distance and duration, places the marker at the path head and
suspends on the settle delay. -/
theorem animateRoute_progress (segments : List Segment) (fetch : ℕ → FetchOutcome)
    (segIndex : ℕ) (cfg : Config) (h : segIndex < segments.length)
    (hne : buildPath (segments.getD segIndex defaultSegment).from_.coordinates
      (segments.getD segIndex defaultSegment).to_.coordinates
      (segments.getD segIndex defaultSegment).mode (fetch segIndex) ≠ []) :
    ∃ path : List Point3,
      animateRoute segments fetch segIndex cfg =
        { cfg with
          isAnimating := true
          currentSegment := segIndex
          invokedIndex := segIndex
          totalDistance := cfg.totalDistance +
            calculateDistance (segments.getD segIndex defaultSegment).from_.coordinates
              (segments.getD segIndex defaultSegment).to_.coordinates
          totalDuration := cfg.totalDuration +
            calculateDuration
              (calculateDistance (segments.getD segIndex defaultSegment).from_.coordinates
                (segments.getD segIndex defaultSegment).to_.coordinates)
              (segments.getD segIndex defaultSegment).mode
          liveCoords := []
          marker := some ((path.getD 0 point3Default).1, (path.getD 0 point3Default).2.1)
          pending := some (.settle segIndex path) } := by
  rcases hp : buildPath (segments.getD segIndex defaultSegment).from_.coordinates
      (segments.getD segIndex defaultSegment).to_.coordinates
      (segments.getD segIndex defaultSegment).mode (fetch segIndex) with _ | ⟨p0, rest⟩
  · exact absurd hp hne
  · refine ⟨p0 :: rest, ?_⟩
    simp only [animateRoute]
    rw [if_neg (by omega), hp]
    rfl

/-- `animateRoute` at a live index whose built path is empty: the totals have
already been accumulated and the `live-route` source rebuilt empty, the old
vehicle marker has been removed, and then the marker placement `path[0][0]`
(Map.tsx line 344) throws a TypeError — the promise rejection is unhandled,
so nothing is scheduled and the run halts without completing or firing
`onTraceComplete`. -/
theorem animateRoute_crash (segments : List Segment) (fetch : ℕ → FetchOutcome)
    (segIndex : ℕ) (cfg : Config) (h : segIndex < segments.length)
    (hpath : buildPath (segments.getD segIndex defaultSegment).from_.coordinates
      (segments.getD segIndex defaultSegment).to_.coordinates
      (segments.getD segIndex defaultSegment).mode (fetch segIndex) = []) :
    animateRoute segments fetch segIndex cfg =
      { cfg with
        isAnimating := true
        currentSegment := segIndex
        invokedIndex := segIndex
        totalDistance := cfg.totalDistance +
          calculateDistance (segments.getD segIndex defaultSegment).from_.coordinates
            (segments.getD segIndex defaultSegment).to_.coordinates
        totalDuration := cfg.totalDuration +
          calculateDuration
            (calculateDistance (segments.getD segIndex defaultSegment).from_.coordinates
              (segments.getD segIndex defaultSegment).to_.coordinates)
            (segments.getD segIndex defaultSegment).mode
        liveCoords := []
        marker := none
        pending := none } := by
  simp only [animateRoute]
  rw [if_neg (by omega), hpath]

/-- The synthesised flight curve is never empty (it has 201 points), so only
a malformed-but-successful directions response can produce an empty path. -/
theorem create3DCurvedPath_ne_nil (s e : ℝ × ℝ) : create3DCurvedPath s e ≠ [] := by
  simp only [create3DCurvedPath, ne_eq, List.ofFn_eq_nil_iff]
  omega

/-- Every demo segment is a flight, so every built demo path is non-empty. -/
theorem demoSegments_ne_nil :
    ∀ i : ℕ, 0 ≤ i → i < demoSegments.length →
      buildPath (demoSegments.getD i defaultSegment).from_.coordinates
        (demoSegments.getD i defaultSegment).to_.coordinates
        (demoSegments.getD i defaultSegment).mode (demoFetch i) ≠ [] := by
  intro i _ h2
  have hi : i = 0 := by
    simp only [demoSegments, List.length_cons, List.length_nil] at h2
    omega
  subst hi
  exact create3DCurvedPath_ne_nil _ _

/-- Both segments of the cancellation scenario are flights, so their built
paths are non-empty. -/
theorem demo2Segments_ne_nil :
    ∀ i : ℕ, 0 ≤ i → i < demo2Segments.length →
      buildPath (demo2Segments.getD i defaultSegment).from_.coordinates
        (demo2Segments.getD i defaultSegment).to_.coordinates
        (demo2Segments.getD i defaultSegment).mode (demoFetch i) ≠ [] := by
  intro i _ h2
  have hi : i = 0 ∨ i = 1 := by
    simp only [demo2Segments, List.length_cons, List.length_nil] at h2
    omega
  rcases hi with hi | hi <;> subst hi
  · exact create3DCurvedPath_ne_nil _ _
  · exact create3DCurvedPath_ne_nil _ _

/-- `totalFrames` evaluates to 480 for flight and 360 for ground modes. -/
theorem totalFrames_eq (m : Mode) : totalFrames m = 480 ∨ totalFrames m = 360 := by
  cases m
  · exact Or.inl (by norm_num [totalFrames, animationDuration, frameTime])
  · exact Or.inr (by norm_num [totalFrames, animationDuration, frameTime])
  · exact Or.inr (by norm_num [totalFrames, animationDuration, frameTime])
  · exact Or.inr (by norm_num [totalFrames, animationDuration, frameTime])

/-- 480 effective frames always exhaust a segment's reveal loop: for paths of
length at most 1 even a single frame does, and for longer paths the cursor
gains `(len - 1) / totalFrames` per frame with `totalFrames ≤ 480`. -/
theorem frames_budget (pathLen : ℕ) (mode : Mode) :
    ∃ j : ℕ, 1 ≤ j ∧
      (pathLen : ℚ) - 1 ≤ 0 + j * progressPerFrame pathLen mode := by
  rcases totalFrames_eq mode with hT | hT
  all_goals rcases le_or_lt pathLen 1 with hL | hL
  · refine ⟨1, le_refl 1, ?_⟩
    interval_cases pathLen <;> norm_num [progressPerFrame, hT]
  · refine ⟨480, by norm_num, ?_⟩
    have h1 : (1 : ℚ) ≤ (pathLen : ℚ) - 1 := by
      have : (2 : ℚ) ≤ (pathLen : ℚ) := by exact_mod_cast hL
      linarith
    rw [progressPerFrame, hT]
    push_cast
    rw [show (480 : ℚ) * (((pathLen : ℚ) - 1) / 480) = (pathLen : ℚ) - 1 by ring]
    linarith
  · refine ⟨1, le_refl 1, ?_⟩
    interval_cases pathLen <;> norm_num [progressPerFrame, hT]
  · refine ⟨480, by norm_num, ?_⟩
    have h1 : (1 : ℚ) ≤ (pathLen : ℚ) - 1 := by
      have : (2 : ℚ) ≤ (pathLen : ℚ) := by exact_mod_cast hL
      linarith
    rw [progressPerFrame, hT]
    push_cast
    rw [show (480 : ℚ) * (((pathLen : ℚ) - 1) / 360) =
      ((pathLen : ℚ) - 1) + ((pathLen : ℚ) - 1) / 3 by ring]
    have h2 : (0 : ℚ) ≤ ((pathLen : ℚ) - 1) / 3 := by linarith
    linarith

/-- Within a budget of `j ≥ 1` effective frames whose accumulated advance
reaches `path.length - 1`, the reveal loop completes: some `k ≤ j` steps
later the full path is published, the next segment's 500 ms timer is the
pending continuation, and every other field of the state is unchanged except
the marker (which is never removed by the loop). -/
theorem frame_loop_completes (segments : List Segment) (fetch : ℕ → FetchOutcome)
    (idx : ℕ) (path : List Point3) :
    ∀ j : ℕ, 1 ≤ j → ∀ (progress : ℚ) (drawn : List Point3) (cfg : Config),
      cfg.pending = some (.frame idx path progress drawn) →
      (path.length : ℚ) - 1 ≤
        progress + j * progressPerFrame path.length (segments.getD idx defaultSegment).mode →
      ∃ k, k ≤ j ∧ ∃ mk,
        run segments fetch k cfg =
          { cfg with
            marker := mk
            liveCoords := path
            pending := some (.nextSeg (idx + 1)) } ∧
          (cfg.marker.isSome = true → mk.isSome = true) := by
  intro j
  induction j with
  | zero => intro h; exact absurd h (by omega)
  | succ j ih =>
    intro _ progress drawn cfg hpend harith
    by_cases hc : (path.length : ℚ) - 1 ≤
        progress + progressPerFrame path.length (segments.getD idx defaultSegment).mode
    · refine ⟨1, by omega, cfg.marker, ?_, fun h => h⟩
      rw [run_one, step_frame segments fetch cfg idx path progress drawn hpend,
        animateStep_done segments idx path progress drawn cfg hc]
    · obtain ⟨pos, hstep2⟩ := animateStep_cont segments idx path progress drawn cfg hc
      have hj1 : 1 ≤ j := by
        rcases Nat.eq_zero_or_pos j with h0 | h1
        · exfalso
          subst h0
          push_cast at harith
          rw [one_mul] at harith
          exact hc harith
        · exact h1
      have harith' : (path.length : ℚ) - 1 ≤
          (progress + progressPerFrame path.length (segments.getD idx defaultSegment).mode) +
            j * progressPerFrame path.length (segments.getD idx defaultSegment).mode := by
        push_cast at harith ⊢
        linarith
      obtain ⟨k, hk, mk, hrun, hmk⟩ := ih hj1
        (progress + progressPerFrame path.length (segments.getD idx defaultSegment).mode)
        (drawn ++ [pos])
        { cfg with
          liveCoords := drawn ++ [pos]
          marker := some (pos.1, pos.2.1)
          pending := some (.frame idx path
            (progress + progressPerFrame path.length (segments.getD idx defaultSegment).mode)
            (drawn ++ [pos])) }
        rfl harith'
      refine ⟨k + 1, by omega, mk, ?_, ?_⟩
      · rw [run_succ, step_frame segments fetch cfg idx path progress drawn hpend, hstep2]
        exact hrun
      · intro _
        exact hmk rfl

/-- From a configuration suspended on the settle delay, the whole reveal loop
completes after `k + 1` steps for some `k`, leaving the full path published
and the next segment's timer pending. -/
theorem settle_to_next (segments : List Segment) (fetch : ℕ → FetchOutcome)
    (idx : ℕ) (cfg : Config) (path : List Point3)
    (hpend : cfg.pending = some (.settle idx path)) :
    ∃ k mk,
      run segments fetch (k + 1) cfg =
        { cfg with
          marker := mk
          liveCoords := path
          pending := some (.nextSeg (idx + 1)) } ∧
        (cfg.marker.isSome = true → mk.isSome = true) := by
  obtain ⟨j, hj1, hjar⟩ := frames_budget path.length (segments.getD idx defaultSegment).mode
  have h2 := step_settle segments fetch cfg idx path hpend
  obtain ⟨k, hk, mk, hrun, hmk⟩ := frame_loop_completes segments fetch idx path j hj1 0
    [path.getD 0 point3Default]
    { cfg with pending := some (.frame idx path 0 [path.getD 0 point3Default]) }
    rfl hjar
  refine ⟨k, mk, ?_, ?_⟩
  · rw [run_succ, h2]
    exact hrun
  · exact hmk

/-- One full segment (entry, settle, reveal loop, 500 ms timer) advances
`animateRoute segIndex` to `animateRoute (segIndex + 1)` on a configuration
that has accumulated exactly this segment's distance and duration. -/
theorem segment_advance (segments : List Segment) (fetch : ℕ → FetchOutcome)
    (segIndex : ℕ) (cfg : Config) (h : segIndex < segments.length)
    (hne : buildPath (segments.getD segIndex defaultSegment).from_.coordinates
      (segments.getD segIndex defaultSegment).to_.coordinates
      (segments.getD segIndex defaultSegment).mode (fetch segIndex) ≠ []) :
    ∃ (k : ℕ) (cfgMid : Config),
      run segments fetch (k + 2) (animateRoute segments fetch segIndex cfg) =
        animateRoute segments fetch (segIndex + 1) cfgMid ∧
      cfgMid.totalDistance = cfg.totalDistance +
        calculateDistance (segments.getD segIndex defaultSegment).from_.coordinates
          (segments.getD segIndex defaultSegment).to_.coordinates ∧
      cfgMid.totalDuration = cfg.totalDuration +
        calculateDuration
          (calculateDistance (segments.getD segIndex defaultSegment).from_.coordinates
            (segments.getD segIndex defaultSegment).to_.coordinates)
          (segments.getD segIndex defaultSegment).mode := by
  obtain ⟨path, h1⟩ := animateRoute_progress segments fetch segIndex cfg h hne
  obtain ⟨k, mk, hrun, hmk⟩ := settle_to_next segments fetch segIndex
    (animateRoute segments fetch segIndex cfg) path (by rw [h1])
  refine ⟨k,
    { cfg with
      isAnimating := true
      currentSegment := segIndex
      invokedIndex := segIndex
      totalDistance := cfg.totalDistance +
        calculateDistance (segments.getD segIndex defaultSegment).from_.coordinates
          (segments.getD segIndex defaultSegment).to_.coordinates
      totalDuration := cfg.totalDuration +
        calculateDuration
          (calculateDistance (segments.getD segIndex defaultSegment).from_.coordinates
            (segments.getD segIndex defaultSegment).to_.coordinates)
          (segments.getD segIndex defaultSegment).mode
      liveCoords := path
      marker := mk
      pending := some (.nextSeg (segIndex + 1)) }, ?_, rfl, rfl⟩
  rw [show k + 2 = (k + 1) + 1 from rfl, run_succ', hrun,
    step_nextSeg segments fetch _ (segIndex + 1) rfl, h1]

/-- Completion facts at an exhausted index (`segIndex = segments.length`). -/
theorem animateRoute_completes_base (segments : List Segment) (fetch : ℕ → FetchOutcome)
    (segIndex : ℕ) (cfg : Config) (h : segIndex = segments.length) :
    ∃ K cfg',
      run segments fetch K (animateRoute segments fetch segIndex cfg) = cfg' ∧
      cfg'.pending = none ∧ cfg'.isAnimating = false ∧ cfg'.marker = none ∧
      cfg'.completed = true ∧ cfg'.invokedIndex = segments.length ∧
      cfg'.totalDistance = cfg.totalDistance +
        ((segments.drop segIndex).map
          (fun s => calculateDistance s.from_.coordinates s.to_.coordinates)).sum ∧
      cfg'.totalDuration = cfg.totalDuration +
        ((segments.drop segIndex).map
          (fun s => calculateDuration
            (calculateDistance s.from_.coordinates s.to_.coordinates) s.mode)).sum := by
  subst h
  have ht := animateRoute_terminal segments fetch segments.length cfg (le_refl _)
  refine ⟨0, animateRoute segments fetch segments.length cfg, rfl, ?_, ?_, ?_, ?_, ?_, ?_, ?_⟩ <;>
    rw [ht] <;> simp [List.drop_length]

/-- Running `animateRoute` from any index to completion: some number of
scheduler steps later the machine is terminal — nothing pending, not
animating, marker removed, completion signalled, final invocation index
`segments.length` — and the totals have accumulated exactly the per-segment
haversine distances and estimated durations of the remaining segments. -/
theorem animateRoute_completes (segments : List Segment) (fetch : ℕ → FetchOutcome) :
    ∀ (n segIndex : ℕ) (cfg : Config),
      segments.length - segIndex ≤ n → segIndex ≤ segments.length →
      (∀ i : ℕ, segIndex ≤ i → i < segments.length →
        buildPath (segments.getD i defaultSegment).from_.coordinates
          (segments.getD i defaultSegment).to_.coordinates
          (segments.getD i defaultSegment).mode (fetch i) ≠ []) →
      ∃ K cfg',
        run segments fetch K (animateRoute segments fetch segIndex cfg) = cfg' ∧
        cfg'.pending = none ∧ cfg'.isAnimating = false ∧ cfg'.marker = none ∧
        cfg'.completed = true ∧ cfg'.invokedIndex = segments.length ∧
        cfg'.totalDistance = cfg.totalDistance +
          ((segments.drop segIndex).map
            (fun s => calculateDistance s.from_.coordinates s.to_.coordinates)).sum ∧
        cfg'.totalDuration = cfg.totalDuration +
          ((segments.drop segIndex).map
            (fun s => calculateDuration
              (calculateDistance s.from_.coordinates s.to_.coordinates) s.mode)).sum := by
  intro n
  induction n with
  | zero =>
    intro segIndex cfg h0 hle _
    exact animateRoute_completes_base segments fetch segIndex cfg (by omega)
  | succ n ih =>
    intro segIndex cfg hn hle hne
    rcases eq_or_lt_of_le hle with heq | hlt
    · exact animateRoute_completes_base segments fetch segIndex cfg heq
    · obtain ⟨k, cfgMid, hadv, hd1, hd2⟩ := segment_advance segments fetch segIndex cfg hlt
        (hne segIndex (le_refl segIndex) hlt)
      obtain ⟨K', cfgF, h5, hp1, hp2, hp3, hp4, hp5, hp6, hp7⟩ :=
        ih (segIndex + 1) cfgMid (by omega) (by omega)
          (fun i hi1 hi2 => hne i (by omega) hi2)
      refine ⟨K' + (k + 2), cfgF, ?_, hp1, hp2, hp3, hp4, hp5, ?_, ?_⟩
      · rw [run_add, hadv, h5]
      · rw [hp6, hd1, List.drop_eq_getElem_cons hlt, List.map_cons, List.sum_cons,
          List.getD_eq_getElem segments defaultSegment hlt]
        ring
      · rw [hp7, hd2, List.drop_eq_getElem_cons hlt, List.map_cons, List.sum_cons,
          List.getD_eq_getElem segments defaultSegment hlt]
        ring

/-! ## Claim C3 -/

/-- C3: invoking `animateRoute` with an index beyond the last segment
(including the empty-list case) transitions to the idle state, removes the
vehicle marker and fires `onTraceComplete`; and a concrete single flight
segment run to completion ends terminal, with the final invocation index `1`
(beyond the last index `0`) and the marker removed. -/
theorem C3_completion_idle :
    (∀ (segments : List Segment) (fetch : ℕ → FetchOutcome) (segIndex : ℕ) (cfg : Config),
        segments.length ≤ segIndex →
        animateRoute segments fetch segIndex cfg =
          { cfg with
            isAnimating := false
            marker := none
            completed := true
            invokedIndex := segIndex
            pending := none }) ∧
      (∃ K cfg',
        run demoSegments demoFetch K (traceStart demoSegments demoFetch initConfig) = cfg' ∧
        cfg'.isAnimating = false ∧ cfg'.marker = none ∧ cfg'.completed = true ∧
        cfg'.invokedIndex = 1 ∧ demoSegments.length = 1 ∧ cfg'.pending = none) := by
  constructor
  · intro segments fetch segIndex cfg h
    exact animateRoute_terminal segments fetch segIndex cfg h
  · obtain ⟨K, cfg', h1, hp1, hp2, hp3, hp4, hp5, hp6, hp7⟩ :=
      animateRoute_completes demoSegments demoFetch 1 0 initConfig
        (by norm_num [demoSegments]) (by norm_num [demoSegments]) demoSegments_ne_nil
    exact ⟨K, cfg', h1, hp2, hp3, hp4, by rw [hp5]; simp [demoSegments], by simp [demoSegments], hp1⟩

/-- C3 witness: the completion branch at a concrete exhausted index. -/
theorem C3_completion_idle_witness :
    animateRoute [] demoFetch 0 initConfig =
      { initConfig with
        isAnimating := false
        marker := none
        completed := true
        invokedIndex := 0
        pending := none } :=
  C3_completion_idle.1 [] demoFetch 0 initConfig (by norm_num)

/-! ## Claim C4 -/

/-- C4 (code bug demonstration): pressing stop during the 500 ms
inter-segment pause does not cancel the pending `setTimeout` continuation and
does not remove the vehicle marker or the live-route overlay, and one further
scheduler step — the leaked timer firing — mutates the animation state again
(`isAnimating` flips back to `true`).  Concretely: run a two-segment route to
the point where segment 0 has completed its reveal and the `nextSeg 1` timer
is pending, then apply the stop handler. -/
theorem C4_stop_leaks_pending_timeout :
    ∃ k cfg',
      run demo2Segments demoFetch k (buttonStart demo2Segments demoFetch initConfig) = cfg' ∧
      cfg'.pending = some (.nextSeg 1) ∧
      cfg'.marker.isSome = true ∧
      (stopAction cfg').isAnimating = false ∧
      (stopAction cfg').pending = some (.nextSeg 1) ∧
      (stopAction cfg').marker.isSome = true ∧
      (stopAction cfg').liveCoords = cfg'.liveCoords ∧
      (step demo2Segments demoFetch (stopAction cfg')).isAnimating = true := by
  obtain ⟨path, h1⟩ := animateRoute_progress demo2Segments demoFetch 0
    { initConfig with totalDistance := 0, totalDuration := 0, liveCoords := [] }
    (by norm_num [demo2Segments])
    (demo2Segments_ne_nil 0 (by omega) (by norm_num [demo2Segments]))
  obtain ⟨k, mk, hrun, hmk⟩ := settle_to_next demo2Segments demoFetch 0
    (animateRoute demo2Segments demoFetch 0
      { initConfig with totalDistance := 0, totalDuration := 0, liveCoords := [] })
    path (by rw [h1])
  have hmarker : mk.isSome = true := hmk (by rw [h1]; rfl)
  refine ⟨k + 1, _, hrun, rfl, hmarker, rfl, rfl, hmarker, rfl, ?_⟩
  obtain ⟨path2, h7⟩ := animateRoute_progress demo2Segments demoFetch 1 _
    (by norm_num [demo2Segments])
    (demo2Segments_ne_nil 1 (by omega) (by norm_num [demo2Segments]))
  rw [step_nextSeg demo2Segments demoFetch _ 1 rfl, h7]

/-! ## Claim C8 -/

/-- C8: in the primary snapshot's reveal loop the per-frame rate divisor
`totalFrames` is never zero, and a zero- or one-point path completes on its
first frame, immediately scheduling the next segment; but in the third
snapshot's camera loop the `stepDuration` divisor `totalSteps =
pathCoords.length - 1` is `0` for a one-point path (the division by zero the
spec forbids), even though that loop, too, completes without crashing (a
zero-point path immediately, a one-point path on its second frame). -/
theorem C8_short_path_guard :
    (∀ mode : Mode, totalFrames mode ≠ 0) ∧
      (∀ (segments : List Segment) (idx : ℕ) (path : List Point3)
          (drawn : List Point3) (cfg : Config),
          path.length ≤ 1 →
          animateStep segments idx path 0 drawn cfg =
            { cfg with liveCoords := path, pending := some (.nextSeg (idx + 1)) }) ∧
      animate3TotalSteps [((0 : ℝ), (0 : ℝ))] = 0 ∧
      animate3Done [((0 : ℝ), (0 : ℝ))] 0 = false ∧
      animate3Done [((0 : ℝ), (0 : ℝ))] (0 + 1 / 2) = true ∧
      animate3Done ([] : List (ℝ × ℝ)) 0 = true := by
  refine ⟨?_, ?_, ?_, ?_, ?_, ?_⟩
  · intro mode
    rcases totalFrames_eq mode with h | h <;> rw [h] <;> norm_num
  · intro segments idx path drawn cfg hlen
    apply animateStep_done
    have h01 : path.length = 0 ∨ path.length = 1 := by omega
    rcases totalFrames_eq (segments.getD idx defaultSegment).mode with hT | hT <;>
      rcases h01 with h | h <;>
      simp only [progressPerFrame, h, hT] <;> norm_num
  · norm_num [animate3TotalSteps]
  · norm_num [animate3Done, animate3TotalSteps]
  · norm_num [animate3Done, animate3TotalSteps]
  · norm_num [animate3Done, animate3TotalSteps]

/-- C8 witness: a zero-point path fed to the reveal loop completes its first
frame. -/
theorem C8_short_path_guard_witness :
    animateStep demoSegments 0 ([] : List Point3) 0 [] initConfig =
      { initConfig with liveCoords := [], pending := some (.nextSeg 1) } :=
  C8_short_path_guard.2.1 demoSegments 0 [] [] initConfig (by norm_num)

/-! ## Claim C9 -/

/-- C9 (amended): a button-started run resets the totals before animating;
provided every segment's built path is non-empty (a successful directions
response whose first route carries an empty coordinate list makes the real
animator throw a TypeError at the marker placement, `path[0][0]`, so such a
run halts and never completes — see `animateRoute_crash`), a button-started
run completes with total distance (and duration) exactly the sum of the
per-segment haversine distances (estimated durations), while a run started
through the `traceRequested` effect does not reset and completes with the
prior total plus that sum. -/
theorem C9_totals_accumulation :
    (∀ (segments : List Segment) (fetch : ℕ → FetchOutcome) (cfg : Config),
        (∀ i : ℕ, i < segments.length →
          buildPath (segments.getD i defaultSegment).from_.coordinates
            (segments.getD i defaultSegment).to_.coordinates
            (segments.getD i defaultSegment).mode (fetch i) ≠ []) →
        ∃ K cfg',
          run segments fetch K (buttonStart segments fetch cfg) = cfg' ∧
          cfg'.completed = true ∧ cfg'.pending = none ∧
          cfg'.totalDistance = sumDistances segments ∧
          cfg'.totalDuration = sumDurations segments) ∧
      (∀ (segments : List Segment) (fetch : ℕ → FetchOutcome) (cfg : Config),
        (∀ i : ℕ, i < segments.length →
          buildPath (segments.getD i defaultSegment).from_.coordinates
            (segments.getD i defaultSegment).to_.coordinates
            (segments.getD i defaultSegment).mode (fetch i) ≠ []) →
        ∃ K cfg',
          run segments fetch K (traceStart segments fetch cfg) = cfg' ∧
          cfg'.completed = true ∧ cfg'.pending = none ∧
          cfg'.totalDistance = cfg.totalDistance + sumDistances segments) := by
  constructor
  · intro segments fetch cfg hne
    obtain ⟨K, cfg', h1, hp1, hp2, hp3, hp4, hp5, hp6, hp7⟩ :=
      animateRoute_completes segments fetch segments.length 0
        { cfg with totalDistance := 0, totalDuration := 0, liveCoords := [] }
        (by omega) (by omega) (fun i _ hi2 => hne i hi2)
    refine ⟨K, cfg', h1, hp4, hp1, ?_, ?_⟩
    · rw [hp6]
      simp [sumDistances]
    · rw [hp7]
      simp [sumDurations]
  · intro segments fetch cfg hne
    obtain ⟨K, cfg', h1, hp1, hp2, hp3, hp4, hp5, hp6, hp7⟩ :=
      animateRoute_completes segments fetch segments.length 0 cfg (by omega) (by omega)
        (fun i _ hi2 => hne i hi2)
    refine ⟨K, cfg', h1, hp4, hp1, ?_⟩
    rw [hp6]
    simp [sumDistances]

/-- C9 witness: a concrete button-started flight run (all built paths
non-empty) completes with totals equal to the per-segment sums. -/
theorem C9_totals_accumulation_witness :
    ∃ K cfg',
      run demoSegments demoFetch K (buttonStart demoSegments demoFetch initConfig) = cfg' ∧
      cfg'.completed = true ∧ cfg'.pending = none ∧
      cfg'.totalDistance = sumDistances demoSegments ∧
      cfg'.totalDuration = sumDurations demoSegments :=
  C9_totals_accumulation.1 demoSegments demoFetch initConfig
    (fun i hi => demoSegments_ne_nil i (by omega) hi)

/-- C9 counterexample: started through `traceRequested` with non-zero prior
totals, the run completes with total distance different from the sum of the
per-segment haversine distances — the claim's equality fails for this way of
starting the run. -/
theorem C9_traceStart_no_reset_counterexample :
    ∃ K cfg',
      run demoSegments demoFetch K (traceStart demoSegments demoFetch cfgPrior) = cfg' ∧
      cfg'.completed = true ∧ cfg'.pending = none ∧
      cfg'.totalDistance ≠ sumDistances demoSegments := by
  obtain ⟨K, cfg', h1, hp1, hp2, hp3, hp4, hp5, hp6, hp7⟩ :=
    animateRoute_completes demoSegments demoFetch 1 0 cfgPrior
      (by norm_num [demoSegments]) (by norm_num [demoSegments]) demoSegments_ne_nil
  refine ⟨K, cfg', h1, hp4, hp1, ?_⟩
  rw [hp6]
  have h5 : cfgPrior.totalDistance = 5 := rfl
  rw [h5, List.drop_zero]
  simp only [sumDistances]
  intro hEq
  linarith
